import Mathlib

/-!
Paws and Preferences: swipe deck

A shallow embedding of `src/app.js`.

* JavaScript numbers are modelled by exact rationals (`ℚ`) for pointer
  coordinates, offsets, angles, opacities, and by `Nat` for the deck cursor,
  card indices, pointer ids and the clock reading.
* The DOM is modelled by a store of card elements (`State.els`, a reference is
  a position in the store) and the list of children of `#deck` in document
  order (`State.deck`).
* A `setTimeout` callback is a pending entry of `State.timers` holding the card
  reference captured by the closure. All callbacks are registered with the same
  delay, so they fire in registration order.
* An uncaught `TypeError` in a handler is `Except.error s`, with `s` the state
  at the moment of the throw (the mutations made so far persist).
* `State.trace` is a ghost field: `clearDrag`, `swipe`, `snapBack` and
  `showSummary` record their call on entry. No modelled function reads it.
-/

namespace Paws

/-! ## Config -/

def TOTAL_CATS : Nat := 12
def SWIPE_THRESHOLD : ℚ := 120
def ROTATE_MAX : ℚ := 14
def ANIM_MS : Nat := 220

/-- Source `catUrl(seed)`: the template string with the decimal seed at the end. -/
def catUrl (seed : Nat) : String :=
  "https://cataas.com/cat?width=800&height=1000&v=" ++ toString seed

/-- Source `clamp(n, min, max) = Math.max(min, Math.min(max, n))`. -/
def clamp (n lo hi : ℚ) : ℚ := max lo (min hi n)

/-! ## Data model -/

/-- One entry of `cats`: `{ id, url }`. -/
structure Cat where
  id : Nat
  url : String
deriving DecidableEq

/-- The two arguments `swipe` is called with: `"like"` and `"dislike"`. -/
inductive Action
  | like
  | dislike
deriving DecidableEq

/-- Values written to `card.style.transform`. -/
inductive Transform
  /-- The template `translateY(offsetY px) scale(scale)`. -/
  | rest (offsetY scale : ℚ)
  /-- The template `translate(x px, y px) rotate(rot deg)`. -/
  | move (x y rot : ℚ)
deriving DecidableEq

/-- Values of `card.style.transition`. -/
inductive Transition
  /-- Never assigned. -/
  | unset
  /-- The string `"none"`. -/
  | off
  /-- The string `transform <ms>ms ease`. -/
  | transformEase (ms : Nat)
deriving DecidableEq

/-- A `.card` element with its two stamps and its image. `likeOpacity` and
`nopeOpacity` are `style.opacity` of `.stamp.like` and `.stamp.nope`
(`none`: never assigned); the number stands for the string `String(number)`. -/
structure CardEl where
  index : Nat
  transform : Transform
  transition : Transition
  likeOpacity : Option ℚ
  nopeOpacity : Option ℚ
  imgSrc : String
  imgAlt : String
deriving DecidableEq

/-- The `drag` record. -/
structure Drag where
  active : Bool
  startX : ℚ
  startY : ℚ
  dx : ℚ
  dy : ℚ
  pointerId : Option Nat
  card : Option Nat
deriving DecidableEq

/-- Children of `#likedGrid`. -/
inductive GridChild
  /-- The paragraph shown when nothing was liked. -/
  | noLiked
  /-- An `img` with its `src` and `alt`. -/
  | img (src alt : String)
deriving DecidableEq

/-- Ghost record of a call. -/
inductive Call
  | clearDrag
  | swipe (action : Action)
  | snapBack (card : Nat)
  | showSummary
deriving DecidableEq

/-- The whole program state: the module variables, the DOM parts the script
touches, the environment it reads, the pending timers and the ghost trace. -/
structure State where
  cats : List Cat
  currentIndex : Nat
  liked : List String
  drag : Drag
  mouseDown : Bool
  els : List CardEl
  deck : List Nat
  status : String
  summaryHidden : Bool
  summaryText : String
  likedGrid : List GridChild
  btnLikeDisabled : Bool
  btnDislikeDisabled : Bool
  innerWidth : ℚ
  pointerEvents : Bool
  timers : List Nat
  trace : List Call

/-- State reached by an event handler, whether it returned or threw. -/
def after : Except State State → State
  | .ok s => s
  | .error s => s

/-- Assign style properties of the element behind a reference. -/
def State.updEl (s : State) (r : Nat) (f : CardEl → CardEl) : State :=
  match s.els[r]? with
  | some el => { s with els := s.els.set r (f el) }
  | none => s

/-- The `data-index` of the element behind a reference. -/
def State.indexOf (s : State) (r : Nat) : Option Nat :=
  (s.els[r]?).map CardEl.index

/-! ## UI -/

/-- Source `updateStatus`. -/
def updateStatus (s : State) : State :=
  let remaining : Int := (s.cats.length : Int) - (s.currentIndex : Int)
  { s with status :=
      if remaining > 0 then
        "Remaining: " ++ toString remaining ++ " | Liked: " ++ toString s.liked.length
      else "" }

/-- Source `showSummary`. -/
def showSummary (s : State) : State :=
  let s := { s with trace := s.trace ++ [Call.showSummary] }
  let s := { s with btnLikeDisabled := true, btnDislikeDisabled := true }
  let s := { s with summaryHidden := false }
  let s := { s with summaryText :=
    "You liked " ++ toString s.liked.length ++ " out of " ++ toString s.cats.length ++ " cats." }
  let s := { s with likedGrid := [] }
  if s.liked.length = 0 then
    { s with likedGrid := [GridChild.noLiked] }
  else
    { s with likedGrid := s.likedGrid ++
        s.liked.enum.map (fun p => GridChild.img p.2 ("Liked cat " ++ toString (p.1 + 1))) }

/-! ## Setup -/

/-- Source `makeCard(cat, index)`: the element it builds (the `.meta` child is
left out, nothing reads it). -/
def makeCard (cat : Cat) (index : Nat) (s : State) : CardEl :=
  let depth : ℚ := (s.cats.length : ℚ) - 1 - (index : ℚ)
  let offsetY : ℚ := min 10 (depth * 3)
  let scale : ℚ := 1 - min (6 / 100) (depth * (1 / 100))
  { index := index
    transform := Transform.rest offsetY scale
    transition := Transition.unset
    likeOpacity := none
    nopeOpacity := none
    imgSrc := cat.url
    imgAlt := "Cat " ++ toString cat.id }

/-- The DOM call `deckEl.appendChild(el)` for a newly created element. -/
def appendChild (el : CardEl) (s : State) : State :=
  { s with els := s.els ++ [el], deck := s.deck ++ [s.els.length] }

/-- Source `renderDeck`: `for (i = cats.length - 1; i >= 0; i--)
deckEl.appendChild(makeCard(cats[i], i))`. -/
def renderDeck (s : State) : State :=
  s.cats.enum.reverse.foldl (fun st p => appendChild (makeCard p.2 p.1 st) st) s

/-- Source `resetApp`, with `baseSeed` the value `Date.now()` returns. -/
def resetApp (baseSeed : Nat) (s : State) : State :=
  let s := { s with
    cats := (List.range TOTAL_CATS).map (fun i => (⟨i + 1, catUrl (baseSeed + i)⟩ : Cat)) }
  let s := { s with currentIndex := 0 }
  let s := { s with liked := [] }
  let s := { s with deck := [] }
  let s := { s with summaryHidden := true }
  let s := { s with likedGrid := [] }
  let s := { s with btnLikeDisabled := false }
  let s := { s with btnDislikeDisabled := false }
  let s := renderDeck s
  updateStatus s

/-- Source `topCardEl`: first child of the deck whose `data-index` equals
`currentIndex`. -/
def topCardEl (s : State) : Option Nat :=
  s.deck.find? (fun r => s.indexOf r == some s.currentIndex)

/-! ## Drag core -/

/-- Source `startDrag(x, y, card, pointerId)`. -/
def startDrag (x y : ℚ) (card : Nat) (pointerId : Option Nat) (s : State) : State :=
  let s := { s with drag :=
    { active := true, startX := x, startY := y, dx := 0, dy := 0,
      pointerId := pointerId, card := some card } }
  s.updEl card (fun el => { el with transition := Transition.off })

/-- Source `updateDrag(x, y)`. -/
def updateDrag (x y : ℚ) (s : State) : State :=
  match s.drag.card with
  | none => s
  | some card =>
    let s := { s with drag := { s.drag with dx := x - s.drag.startX } }
    let s := { s with drag := { s.drag with dy := y - s.drag.startY } }
    let rot := clamp (s.drag.dx / 300 * ROTATE_MAX) (-ROTATE_MAX) ROTATE_MAX
    let s := s.updEl card (fun el =>
      { el with transform := Transform.move s.drag.dx s.drag.dy rot })
    let fade := clamp (abs s.drag.dx / SWIPE_THRESHOLD) 0 1
    if s.drag.dx > (0 : ℚ) then
      s.updEl card (fun el => { el with likeOpacity := some fade, nopeOpacity := some 0 })
    else
      s.updEl card (fun el => { el with nopeOpacity := some fade, likeOpacity := some 0 })

/-- Source `clearDrag`. -/
def clearDrag (s : State) : State :=
  let s := { s with trace := s.trace ++ [Call.clearDrag] }
  { s with drag :=
    { s.drag with active := false, pointerId := none, card := none, dx := 0, dy := 0 } }

/-- The callback `swipe` hands to `setTimeout`; `card` is the captured element. -/
def swipeTimeout (card : Nat) (s : State) : State :=
  let s := { s with deck := s.deck.erase card }
  let s := { s with currentIndex := s.currentIndex + 1 }
  let s := updateStatus s
  if s.currentIndex ≥ s.cats.length then showSummary s else s

/-- Source `swipe(action)`. Reading `cat.url` of an undefined `cat` throws. -/
def swipe (action : Action) (s : State) : Except State State :=
  let s := { s with trace := s.trace ++ [Call.swipe action] }
  match topCardEl s with
  | none => Except.ok s
  | some card =>
    let cat := s.cats[s.currentIndex]?
    let pushed : Option State :=
      if action = Action.like then
        match cat with
        | some c => some { s with liked := s.liked ++ [c.url] }
        | none => none
      else some s
    match pushed with
    | none => Except.error s
    | some s =>
      let outX : ℚ :=
        if action = Action.like then s.innerWidth * (12 / 10) else -s.innerWidth * (12 / 10)
      let outY : ℚ := 0
      let outRot : ℚ := if action = Action.like then 18 else -18
      let s := s.updEl card (fun el => { el with transition := Transition.transformEase ANIM_MS })
      let s := s.updEl card (fun el => { el with transform := Transform.move outX outY outRot })
      Except.ok { s with timers := s.timers ++ [card] }

/-- Source `snapBack(card)`. -/
def snapBack (card : Nat) (s : State) : State :=
  let s := { s with trace := s.trace ++ [Call.snapBack card] }
  match s.els[card]? with
  | none => s
  | some el =>
    let index := el.index
    let depth : ℚ := (s.cats.length : ℚ) - 1 - (index : ℚ)
    let offsetY : ℚ := min 10 (depth * 3)
    let scale : ℚ := 1 - min (6 / 100) (depth * (1 / 100))
    let s := s.updEl card (fun el => { el with transition := Transition.transformEase 180 })
    let s := s.updEl card (fun el => { el with transform := Transform.rest offsetY scale })
    let s := s.updEl card (fun el => { el with likeOpacity := some 0 })
    s.updEl card (fun el => { el with nopeOpacity := some 0 })

/-- Source `finishDrag`. -/
def finishDrag (s : State) : Except State State :=
  match s.drag.card with
  | none => Except.ok (clearDrag s)
  | some card =>
    let dx := s.drag.dx
    let s := clearDrag s
    if dx > SWIPE_THRESHOLD then swipe Action.like s
    else if dx < -SWIPE_THRESHOLD then swipe Action.dislike s
    else Except.ok (snapBack card s)

/-! ## Input adapters -/

/-- Values of `e.pointerType`. -/
inductive PointerType
  | mouse
  | touch
  | pen
deriving DecidableEq

/-- What the pointer handlers read from the event. `hit` is the result of
`e.target.closest(".card")`. -/
structure PointerEv where
  hit : Option Nat
  pointerType : PointerType
  button : Int
  clientX : ℚ
  clientY : ℚ
  pointerId : Nat

/-- What the touch handlers read from the event: the hit card and the
coordinates of `e.touches[0]`. -/
structure TouchEv where
  hit : Option Nat
  clientX : ℚ
  clientY : ℚ

/-- What the mouse handlers read from the event. -/
structure MouseEv where
  hit : Option Nat
  button : Int
  clientX : ℚ
  clientY : ℚ

/-- Source `onPointerDown`. The calls `preventDefault` and `setPointerCapture`
change nothing in the modelled state. -/
def onPointerDown (e : PointerEv) (s : State) : State :=
  match topCardEl s with
  | none => s
  | some card =>
    match e.hit with
    | none => s
    | some hit =>
      if hit ≠ card then s
      else if e.pointerType = PointerType.mouse ∧ e.button ≠ 0 then s
      else startDrag e.clientX e.clientY card (some e.pointerId) s

/-- Source `onPointerMove`. -/
def onPointerMove (e : PointerEv) (s : State) : State :=
  if !s.drag.active then s
  else if s.drag.pointerId ≠ none ∧ some e.pointerId ≠ s.drag.pointerId then s
  else updateDrag e.clientX e.clientY s

/-- Source `onPointerUp` (bound to `pointerup` and `pointercancel`). -/
def onPointerUp (e : PointerEv) (s : State) : Except State State :=
  if !s.drag.active then Except.ok s
  else if s.drag.pointerId ≠ none ∧ some e.pointerId ≠ s.drag.pointerId then Except.ok s
  else finishDrag s

/-- Source `onTouchStart`. -/
def onTouchStart (e : TouchEv) (s : State) : State :=
  match topCardEl s with
  | none => s
  | some card =>
    match e.hit with
    | none => s
    | some hit =>
      if hit ≠ card then s
      else startDrag e.clientX e.clientY card none s

/-- Source `onTouchMove`. -/
def onTouchMove (e : TouchEv) (s : State) : State :=
  if !s.drag.active then s
  else updateDrag e.clientX e.clientY s

/-- Source `onTouchEnd`. -/
def onTouchEnd (s : State) : Except State State :=
  if !s.drag.active then Except.ok s
  else finishDrag s

/-- Source `onMouseDown`. -/
def onMouseDown (e : MouseEv) (s : State) : State :=
  match topCardEl s with
  | none => s
  | some card =>
    match e.hit with
    | none => s
    | some hit =>
      if hit ≠ card then s
      else if e.button ≠ 0 then s
      else startDrag e.clientX e.clientY card none { s with mouseDown := true }

/-- Source `onMouseMove`. -/
def onMouseMove (e : MouseEv) (s : State) : State :=
  if !s.mouseDown || !s.drag.active then s
  else updateDrag e.clientX e.clientY s

/-- Source `onMouseUp`. -/
def onMouseUp (s : State) : Except State State :=
  if !s.mouseDown then Except.ok s
  else
    let s := { s with mouseDown := false }
    if !s.drag.active then Except.ok s
    else finishDrag s

/-! ## Events -/

/-- The events the page reacts to: the input events of `bindDeckDrag`, the
three button clicks of `bindButtons` (`clickRestart` carries the clock reading)
and the expiry of the oldest pending timer. -/
inductive Event
  | pointerdown (e : PointerEv)
  | pointermove (e : PointerEv)
  | pointerup (e : PointerEv)
  | pointercancel (e : PointerEv)
  | touchstart (e : TouchEv)
  | touchmove (e : TouchEv)
  | touchend
  | mousedown (e : MouseEv)
  | mousemove (e : MouseEv)
  | mouseup
  | clickLike
  | clickDislike
  | clickRestart (now : Nat)
  | timeout

/-- The listeners registered by `bindDeckDrag` and `bindButtons`: pointer
listeners when `window.PointerEvent` exists, touch and mouse listeners
otherwise; a disabled button delivers no click. -/
def dispatch (ev : Event) (s : State) : Except State State :=
  match ev with
  | Event.pointerdown e => if s.pointerEvents then Except.ok (onPointerDown e s) else Except.ok s
  | Event.pointermove e => if s.pointerEvents then Except.ok (onPointerMove e s) else Except.ok s
  | Event.pointerup e => if s.pointerEvents then onPointerUp e s else Except.ok s
  | Event.pointercancel e => if s.pointerEvents then onPointerUp e s else Except.ok s
  | Event.touchstart e => if s.pointerEvents then Except.ok s else Except.ok (onTouchStart e s)
  | Event.touchmove e => if s.pointerEvents then Except.ok s else Except.ok (onTouchMove e s)
  | Event.touchend => if s.pointerEvents then Except.ok s else onTouchEnd s
  | Event.mousedown e => if s.pointerEvents then Except.ok s else Except.ok (onMouseDown e s)
  | Event.mousemove e => if s.pointerEvents then Except.ok s else Except.ok (onMouseMove e s)
  | Event.mouseup => if s.pointerEvents then Except.ok s else onMouseUp s
  | Event.clickLike => if s.btnLikeDisabled then Except.ok s else swipe Action.like s
  | Event.clickDislike => if s.btnDislikeDisabled then Except.ok s else swipe Action.dislike s
  | Event.clickRestart now => Except.ok (resetApp now s)
  | Event.timeout =>
    match s.timers with
    | [] => Except.ok s
    | card :: rest => Except.ok (swipeTimeout card { s with timers := rest })

/-- Run a sequence of events; the page goes on after a handler that threw. -/
def run (evs : List Event) (s : State) : State :=
  evs.foldl (fun st ev => after (dispatch ev st)) s

/-- The state the script starts from: the module-level initialisers, an empty
`#deck` and no pending timer. `innerWidth` and `pointerEvents` are what the
browser provides. -/
def boot (innerWidth : ℚ) (pointerEvents : Bool) : State :=
  { cats := []
    currentIndex := 0
    liked := []
    drag := { active := false, startX := 0, startY := 0, dx := 0, dy := 0,
              pointerId := none, card := none }
    mouseDown := false
    els := []
    deck := []
    status := ""
    summaryHidden := true
    summaryText := ""
    likedGrid := []
    btnLikeDisabled := false
    btnDislikeDisabled := false
    innerWidth := innerWidth
    pointerEvents := pointerEvents
    timers := []
    trace := [] }

/-- Source `init`; `bindButtons` and `bindDeckDrag` are `dispatch`. -/
def init (now : Nat) (s : State) : State :=
  updateStatus (resetApp now s)

/-- One resolve whose deferred advance completes before anything else happens:
`swipe(action)`, then the timer fires. -/
def resolve (action : Action) (s : State) : State :=
  after (dispatch Event.timeout (after (swipe action s)))

/-- The state `swipe` leaves once the top card `card` is found and the push,
if any, is done: the fly-out style and the registered timer. -/
def flyOut (action : Action) (card : Nat) (s : State) : State :=
  let outX : ℚ :=
    if action = Action.like then s.innerWidth * (12 / 10) else -s.innerWidth * (12 / 10)
  let outRot : ℚ := if action = Action.like then 18 else -18
  let s1 := s.updEl card (fun el => { el with transition := Transition.transformEase ANIM_MS })
  let s2 := s1.updEl card (fun el => { el with transform := Transform.move outX 0 outRot })
  { s2 with timers := s2.timers ++ [card] }

/-- The number a list of decimal digit characters denotes. -/
def digitsVal (cs : List Char) : Nat :=
  cs.foldl (fun a c => 10 * a + (c.toNat - 48)) 0

/-- Resolve the outcomes of a list one after another, each deferred advance
completing before the next resolve. -/
def resolveAll (acts : List Action) (s : State) : State :=
  acts.foldl (fun st a => resolve a st) s

/-- Some child of the deck carries `data-index = j`. -/
def State.hasCard (s : State) (j : Nat) : Prop :=
  ∃ r, r ∈ s.deck ∧ s.indexOf r = some j

/-- Every position from the cursor to the end of `cats` has its card in the deck. -/
def State.covered (s : State) : Prop :=
  ∀ j : Nat, s.currentIndex ≤ j → j < s.cats.length → s.hasCard j

/-- A deck of three cards A, B, C before it is rendered. -/
def cards3 : State :=
  { boot 1024 true with cats := [⟨1, "A"⟩, ⟨2, "B"⟩, ⟨3, "C"⟩] }

/-- The gesture of the scenarios on the rendered three-card deck: press on
card A (reference 2) at `x = 0`, move to `x`, release. -/
def gesture (x : ℚ) : List Event :=
  [Event.pointerdown ⟨some 2, PointerType.touch, 0, 0, 0, 1⟩,
   Event.pointermove ⟨some 2, PointerType.touch, 0, x, 0, 1⟩,
   Event.pointerup ⟨some 2, PointerType.touch, 0, x, 0, 1⟩]

/-- The page right after `init()` with clock reading 0, window width 1024 and
pointer events available. Its top card (`data-index` 0) has reference 11. -/
def page0 : State := init 0 (boot 1024 true)

/-- A first contact (pointer 1) pressing on the top card of `page0` at `(0, 0)`
and moving to `(30, 10)`. -/
def firstContact : List Event :=
  [Event.pointerdown ⟨some 11, PointerType.touch, 0, 0, 0, 1⟩,
   Event.pointermove ⟨some 11, PointerType.touch, 0, 30, 10, 1⟩]

/-- A second contact (pointer 2) pressing on the same card at `(200, 300)`. -/
def secondContact : Event :=
  Event.pointerdown ⟨some 11, PointerType.touch, 0, 200, 300, 2⟩

/-- Two clicks on Like before the first timer fires, then both timers firing. -/
def doubleClick : List Event :=
  [Event.clickLike, Event.clickLike, Event.timeout, Event.timeout]

/-- Eleven cards resolved one at a time by a click on Like and its timer. -/
def elevenLikes : List Event :=
  (List.replicate 11 [Event.clickLike, Event.timeout]).flatten

/-- The session is inactive and all its resettable fields are cleared. -/
def Drag.cleared (d : Drag) : Prop :=
  d.active = false ∧ d.card = none ∧ d.pointerId = none ∧ d.dx = 0 ∧ d.dy = 0

/-- Number of `showSummary` calls so far. -/
def summaryCalls (s : State) : Nat :=
  s.trace.count Call.showSummary

/-! # Theorems -/

/-! ## Basic facts -/

@[simp] theorem after_ok (s : State) : after (Except.ok s) = s := rfl
@[simp] theorem after_error (s : State) : after (Except.error s) = s := rfl

@[simp] theorem updEl_cats (s : State) (r : Nat) (f : CardEl → CardEl) :
    (s.updEl r f).cats = s.cats := by
  unfold State.updEl; split <;> rfl
@[simp] theorem updEl_currentIndex (s : State) (r : Nat) (f : CardEl → CardEl) :
    (s.updEl r f).currentIndex = s.currentIndex := by
  unfold State.updEl; split <;> rfl
@[simp] theorem updEl_liked (s : State) (r : Nat) (f : CardEl → CardEl) :
    (s.updEl r f).liked = s.liked := by
  unfold State.updEl; split <;> rfl
@[simp] theorem updEl_drag (s : State) (r : Nat) (f : CardEl → CardEl) :
    (s.updEl r f).drag = s.drag := by
  unfold State.updEl; split <;> rfl
@[simp] theorem updEl_deck (s : State) (r : Nat) (f : CardEl → CardEl) :
    (s.updEl r f).deck = s.deck := by
  unfold State.updEl; split <;> rfl
@[simp] theorem updEl_timers (s : State) (r : Nat) (f : CardEl → CardEl) :
    (s.updEl r f).timers = s.timers := by
  unfold State.updEl; split <;> rfl
@[simp] theorem updEl_trace (s : State) (r : Nat) (f : CardEl → CardEl) :
    (s.updEl r f).trace = s.trace := by
  unfold State.updEl; split <;> rfl
@[simp] theorem updEl_innerWidth (s : State) (r : Nat) (f : CardEl → CardEl) :
    (s.updEl r f).innerWidth = s.innerWidth := by
  unfold State.updEl; split <;> rfl
@[simp] theorem updEl_els_length (s : State) (r : Nat) (f : CardEl → CardEl) :
    (s.updEl r f).els.length = s.els.length := by
  unfold State.updEl; split <;> simp

theorem updEl_get_self (s : State) (r : Nat) (f : CardEl → CardEl) (el : CardEl)
    (h : s.els[r]? = some el) : (s.updEl r f).els[r]? = some (f el) := by
  have hr : r < s.els.length := by
    rcases Nat.lt_or_ge r s.els.length with h1 | h1
    · exact h1
    · rw [List.getElem?_eq_none h1] at h; cases h
  unfold State.updEl
  rw [h]
  simp [List.getElem?_set, hr]

theorem updEl_get_other (s : State) (r q : Nat) (f : CardEl → CardEl) (h : q ≠ r) :
    (s.updEl r f).els[q]? = s.els[q]? := by
  unfold State.updEl
  split
  · simp [List.getElem?_set, Ne.symm h]
  · rfl

@[simp] theorem updEl_indexOf (s : State) (r q : Nat) (f : CardEl → CardEl)
    (hf : ∀ el, (f el).index = el.index) : (s.updEl r f).indexOf q = s.indexOf q := by
  unfold State.indexOf
  by_cases h : q = r
  · subst h
    cases hq : s.els[q]? with
    | none => simp [State.updEl, hq]
    | some el => rw [updEl_get_self s q f el hq]; simp [hf]
  · rw [updEl_get_other s r q f h]

theorem topCardEl_congr (s t : State) (h1 : t.deck = s.deck) (h2 : t.els = s.els)
    (h3 : t.currentIndex = s.currentIndex) : topCardEl t = topCardEl s := by
  unfold topCardEl State.indexOf
  rw [h1, h2, h3]

theorem swipe_none (a : Action) (s : State) (h : topCardEl s = none) :
    swipe a s = Except.ok { s with trace := s.trace ++ [Call.swipe a] } := by
  have h0 : topCardEl { s with trace := s.trace ++ [Call.swipe a] } = none := h
  unfold swipe
  simp only [h0]

theorem swipe_like_some (s : State) (card : Nat) (cat : Cat) (h : topCardEl s = some card)
    (hc : s.cats[s.currentIndex]? = some cat) :
    swipe Action.like s = Except.ok (flyOut Action.like card
      { s with trace := s.trace ++ [Call.swipe Action.like], liked := s.liked ++ [cat.url] }) := by
  have h0 : topCardEl { s with trace := s.trace ++ [Call.swipe Action.like] } = some card := h
  unfold swipe
  simp only [h0, hc, if_true]
  rfl

theorem swipe_like_undefined (s : State) (card : Nat) (h : topCardEl s = some card)
    (hc : s.cats[s.currentIndex]? = none) :
    swipe Action.like s = Except.error { s with trace := s.trace ++ [Call.swipe Action.like] } := by
  have h0 : topCardEl { s with trace := s.trace ++ [Call.swipe Action.like] } = some card := h
  unfold swipe
  simp only [h0, hc, if_true]

theorem swipe_dislike_some (s : State) (card : Nat) (h : topCardEl s = some card) :
    swipe Action.dislike s = Except.ok (flyOut Action.dislike card
      { s with trace := s.trace ++ [Call.swipe Action.dislike] }) := by
  have h0 : topCardEl { s with trace := s.trace ++ [Call.swipe Action.dislike] } = some card := h
  have hne : ¬ (Action.dislike = Action.like) := by decide
  unfold swipe
  simp only [h0, hne, if_false]
  rfl

@[simp] theorem flyOut_trace (a : Action) (card : Nat) (s : State) :
    (flyOut a card s).trace = s.trace := by
  simp [flyOut]

theorem swipe_trace (a : Action) (s : State) :
    (after (swipe a s)).trace = s.trace ++ [Call.swipe a] := by
  cases h : topCardEl s with
  | none => rw [swipe_none a s h]; rfl
  | some card =>
    cases a with
    | dislike => rw [swipe_dislike_some s card h]; simp
    | like =>
      cases hc : s.cats[s.currentIndex]? with
      | none => rw [swipe_like_undefined s card h hc]; rfl
      | some cat => rw [swipe_like_some s card cat h hc]; simp

theorem snapBack_trace (card : Nat) (s : State) :
    (snapBack card s).trace = s.trace ++ [Call.snapBack card] := by
  unfold snapBack
  simp only []
  split <;> simp

theorem finishDrag_trace (s : State) (card : Nat) (hcard : s.drag.card = some card) :
    (after (finishDrag s)).trace = s.trace ++
      [Call.clearDrag,
        if s.drag.dx > SWIPE_THRESHOLD then Call.swipe Action.like
        else if s.drag.dx < -SWIPE_THRESHOLD then Call.swipe Action.dislike
        else Call.snapBack card] := by
  unfold finishDrag
  rw [hcard]
  simp only []
  by_cases h1 : s.drag.dx > SWIPE_THRESHOLD
  · simp [h1, swipe_trace, clearDrag]
  · by_cases h2 : s.drag.dx < -SWIPE_THRESHOLD
    · simp [h1, h2, swipe_trace, clearDrag]
    · simp [h1, h2, snapBack_trace, clearDrag]

/-! ## Decision at release -/

/-- C1: with a bound card, `finishDrag` calls `swipe("like")` exactly when
`dx > 120`, `swipe("dislike")` exactly when `dx < -120`, and `snapBack(card)`
exactly when neither holds; at `dx = 120` and at `dx = -120` it calls
`snapBack`. The calls are read off the trace. -/
theorem finishDrag_decision (s : State) (card : Nat) (hcard : s.drag.card = some card) :
    ((after (finishDrag s)).trace = s.trace ++ [Call.clearDrag, Call.swipe Action.like]
        ↔ s.drag.dx > 120) ∧
    ((after (finishDrag s)).trace = s.trace ++ [Call.clearDrag, Call.swipe Action.dislike]
        ↔ s.drag.dx < -120) ∧
    ((after (finishDrag s)).trace = s.trace ++ [Call.clearDrag, Call.snapBack card]
        ↔ ¬ s.drag.dx > 120 ∧ ¬ s.drag.dx < -120) ∧
    (s.drag.dx = 120 →
      (after (finishDrag s)).trace = s.trace ++ [Call.clearDrag, Call.snapBack card]) ∧
    (s.drag.dx = -120 →
      (after (finishDrag s)).trace = s.trace ++ [Call.clearDrag, Call.snapBack card]) := by
  rw [finishDrag_trace s card hcard]
  simp only [SWIPE_THRESHOLD]
  by_cases h1 : s.drag.dx > 120
  · have h2 : ¬ s.drag.dx < -120 := by linarith
    simp [h1, h2]
    constructor <;> intro h <;> linarith
  · by_cases h2 : s.drag.dx < -120
    · simp [h1, h2]
      constructor <;> intro h <;> linarith
    · simp [h1, h2]

/-- Three-card deck, press on A at `x = 0`, move to `x = 120`: the release calls
`clearDrag`, then `snapBack` on A. -/
theorem finishDrag_decision_witness :
    (after (finishDrag (updateDrag 120 0 (startDrag 0 0 2 (some 1) (renderDeck cards3))))).trace =
      [Call.clearDrag, Call.snapBack 2] :=
  ((finishDrag_decision (updateDrag 120 0 (startDrag 0 0 2 (some 1) (renderDeck cards3))) 2
    (by with_unfolding_all rfl)).2.2.2.1 (by decide!)).trans (by with_unfolding_all rfl)

/-! ## Session lifecycle -/

@[simp] theorem flyOut_drag (a : Action) (card : Nat) (s : State) :
    (flyOut a card s).drag = s.drag := by
  simp [flyOut]

theorem swipe_drag (a : Action) (s : State) : (after (swipe a s)).drag = s.drag := by
  cases h : topCardEl s with
  | none => rw [swipe_none a s h]; rfl
  | some card =>
    cases a with
    | dislike => rw [swipe_dislike_some s card h]; simp
    | like =>
      cases hc : s.cats[s.currentIndex]? with
      | none => rw [swipe_like_undefined s card h hc]; rfl
      | some cat => rw [swipe_like_some s card cat h hc]; simp

theorem snapBack_drag (card : Nat) (s : State) : (snapBack card s).drag = s.drag := by
  unfold snapBack
  simp only []
  split <;> simp

theorem updateDrag_card (x y : ℚ) (s : State) : (updateDrag x y s).drag.card = s.drag.card := by
  unfold updateDrag
  split
  · rfl
  · simp only []
    split <;> simp

theorem updates_card (moves : List (ℚ × ℚ)) (s : State) :
    (moves.foldl (fun st p => updateDrag p.1 p.2 st) s).drag.card = s.drag.card := by
  induction moves generalizing s with
  | nil => rfl
  | cons p ps ih => rw [List.foldl_cons, ih, updateDrag_card]

theorem startDrag_card (x y : ℚ) (card : Nat) (pid : Option Nat) (s : State) :
    (startDrag x y card pid s).drag.card = some card := by
  simp [startDrag]

theorem clearDrag_cleared (s : State) : (clearDrag s).drag.cleared := by
  simp [clearDrag, Drag.cleared]

/-- C5: after `startDrag`, any number of `updateDrag` calls and `finishDrag`,
the session has `active = false`, `card = null`, `pointerId = null`, `dx = 0`
and `dy = 0`, whatever the coordinates were; `finishDrag` runs its outcome
branch (`swipe` or `snapBack`) on the state `clearDrag` produced, in which the
session is already cleared, and the trace shows `clearDrag` right before the
branch call. -/
theorem finishDrag_clears_session (s : State) (x0 y0 : ℚ) (card : Nat) (pid : Option Nat)
    (moves : List (ℚ × ℚ)) :
    (after (finishDrag (moves.foldl (fun st p => updateDrag p.1 p.2 st)
        (startDrag x0 y0 card pid s)))).drag.cleared ∧
    ∃ mid : State, ∃ call : Call,
      mid = clearDrag (moves.foldl (fun st p => updateDrag p.1 p.2 st)
        (startDrag x0 y0 card pid s)) ∧
      mid.drag.cleared ∧
      ((call = Call.swipe Action.like ∧
          finishDrag (moves.foldl (fun st p => updateDrag p.1 p.2 st)
            (startDrag x0 y0 card pid s)) = swipe Action.like mid) ∨
        (call = Call.swipe Action.dislike ∧
          finishDrag (moves.foldl (fun st p => updateDrag p.1 p.2 st)
            (startDrag x0 y0 card pid s)) = swipe Action.dislike mid) ∨
        (call = Call.snapBack card ∧
          finishDrag (moves.foldl (fun st p => updateDrag p.1 p.2 st)
            (startDrag x0 y0 card pid s)) = Except.ok (snapBack card mid))) ∧
      (after (finishDrag (moves.foldl (fun st p => updateDrag p.1 p.2 st)
        (startDrag x0 y0 card pid s)))).trace =
        (moves.foldl (fun st p => updateDrag p.1 p.2 st)
          (startDrag x0 y0 card pid s)).trace ++ [Call.clearDrag, call] := by
  generalize hs1 : moves.foldl (fun st p => updateDrag p.1 p.2 st)
    (startDrag x0 y0 card pid s) = s1
  have hcard : s1.drag.card = some card := by
    rw [← hs1, updates_card, startDrag_card]
  have hfin : finishDrag s1 =
      if s1.drag.dx > SWIPE_THRESHOLD then swipe Action.like (clearDrag s1)
      else if s1.drag.dx < -SWIPE_THRESHOLD then swipe Action.dislike (clearDrag s1)
      else Except.ok (snapBack card (clearDrag s1)) := by
    unfold finishDrag
    rw [hcard]
  have htr := finishDrag_trace s1 card hcard
  by_cases h1 : s1.drag.dx > SWIPE_THRESHOLD
  · rw [if_pos h1] at hfin htr
    refine ⟨?_, clearDrag s1, Call.swipe Action.like, rfl, clearDrag_cleared s1,
      Or.inl ⟨rfl, hfin⟩, htr⟩
    rw [hfin, swipe_drag]
    exact clearDrag_cleared s1
  · rw [if_neg h1] at hfin htr
    by_cases h2 : s1.drag.dx < -SWIPE_THRESHOLD
    · rw [if_pos h2] at hfin htr
      refine ⟨?_, clearDrag s1, Call.swipe Action.dislike, rfl, clearDrag_cleared s1,
        Or.inr (Or.inl ⟨rfl, hfin⟩), htr⟩
      rw [hfin, swipe_drag]
      exact clearDrag_cleared s1
    · rw [if_neg h2] at hfin htr
      refine ⟨?_, clearDrag s1, Call.snapBack card, rfl, clearDrag_cleared s1,
        Or.inr (Or.inr ⟨rfl, hfin⟩), htr⟩
      rw [hfin, after_ok, snapBack_drag]
      exact clearDrag_cleared s1

/-! ## Resolve with no top card -/

/-- C4: with no top card, `swipe` returns normally for both actions, registers
no timer, and leaves `liked`, `currentIndex` and every other part of the state
as they were (only the ghost trace grows). -/
theorem swipe_without_top_card (a : Action) (s : State) (h : topCardEl s = none) :
    ∃ t : State, swipe a s = Except.ok t ∧ t.timers = s.timers ∧ t.liked = s.liked ∧
      t.currentIndex = s.currentIndex ∧ { t with trace := s.trace } = s := by
  exact ⟨_, swipe_none a s h, rfl, rfl, rfl, rfl⟩

/-- The three-card deck after its three cards were resolved: one more click on
Like changes neither `liked` nor the cursor and registers no timer. -/
theorem swipe_without_top_card_witness :
    ∃ t : State,
      swipe Action.like
        (resolveAll [Action.like, Action.dislike, Action.like] (renderDeck cards3)) =
        Except.ok t ∧
      t.timers = [] ∧ t.liked = ["A", "C"] ∧ t.currentIndex = 3 := by
  obtain ⟨t, h1, h2, h3, h4, -⟩ := swipe_without_top_card Action.like
    (resolveAll [Action.like, Action.dislike, Action.like] (renderDeck cards3))
    (by with_unfolding_all rfl)
  exact ⟨t, h1, h2.trans (by with_unfolding_all rfl), h3.trans (by with_unfolding_all rfl),
    h4.trans (by with_unfolding_all rfl)⟩

/-! ## Visual feedback during a drag -/

theorem clamp_bounds (n lo hi : ℚ) (h : lo ≤ hi) : lo ≤ clamp n lo hi ∧ clamp n lo hi ≤ hi := by
  unfold clamp
  exact ⟨le_max_left _ _, max_le h (min_le_left _ _)⟩

theorem clamp_of_mem (n lo hi : ℚ) (h1 : lo ≤ n) (h2 : n ≤ hi) : clamp n lo hi = n := by
  unfold clamp
  rw [min_eq_right h2, max_eq_right h1]

theorem updateDrag_drag (x y : ℚ) (s : State) (card : Nat) (hcard : s.drag.card = some card) :
    (updateDrag x y s).drag =
      { s.drag with dx := x - s.drag.startX, dy := y - s.drag.startY } := by
  unfold updateDrag
  rw [hcard]
  simp only []
  split <;> simp

theorem updateDrag_el (x y : ℚ) (s : State) (card : Nat) (el : CardEl)
    (hcard : s.drag.card = some card) (hel : s.els[card]? = some el) :
    (updateDrag x y s).els[card]? = some
      { el with
        transform := Transform.move (x - s.drag.startX) (y - s.drag.startY)
          (clamp ((x - s.drag.startX) / 300 * ROTATE_MAX) (-ROTATE_MAX) ROTATE_MAX)
        likeOpacity :=
          if x - s.drag.startX > 0 then
            some (clamp (abs (x - s.drag.startX) / SWIPE_THRESHOLD) 0 1)
          else some 0
        nopeOpacity :=
          if x - s.drag.startX > 0 then some 0
          else some (clamp (abs (x - s.drag.startX) / SWIPE_THRESHOLD) 0 1) } := by
  unfold updateDrag
  rw [hcard]
  simp only []
  split
  · rename_i hpos
    simp only [updEl_drag] at hpos
    refine (updEl_get_self _ card _ _ (updEl_get_self _ card _ el ?_)).trans ?_
    · exact hel
    · simp only [updEl_drag, if_pos hpos]
  · rename_i hpos
    simp only [updEl_drag] at hpos
    refine (updEl_get_self _ card _ _ (updEl_get_self _ card _ el ?_)).trans ?_
    · exact hel
    · simp only [updEl_drag, if_neg hpos]

/-- C10: `updateDrag(x, y)` on a session bound to a card with origin
`(x0, y0)` sets the offset to `(x - x0, y - y0)` and the transform to the
translation by the offset with rotation `clamp(dx / 300 * 14, -14, 14)`; that
angle lies in `[-14, 14]` and equals `dx * 14 / 300` when `|dx| ≤ 300`; the
fade ratio `clamp(|dx| / 120, 0, 1)` lies in `[0, 1]` and is `1` exactly when
`|dx| ≥ 120`; for `dx > 0` the like stamp gets the fade ratio and the nope
stamp `0`, for `dx ≤ 0` the nope stamp gets the fade ratio and the like stamp
`0`. -/
theorem updateDrag_feedback (x y : ℚ) (s : State) (card : Nat) (el : CardEl)
    (hcard : s.drag.card = some card) (hel : s.els[card]? = some el) :
    (updateDrag x y s).drag.dx = x - s.drag.startX ∧
    (updateDrag x y s).drag.dy = y - s.drag.startY ∧
    ((updateDrag x y s).els[card]?).map CardEl.transform =
      some (Transform.move (x - s.drag.startX) (y - s.drag.startY)
        (clamp ((x - s.drag.startX) / 300 * 14) (-14) 14)) ∧
    -14 ≤ clamp ((x - s.drag.startX) / 300 * 14) (-14) 14 ∧
    clamp ((x - s.drag.startX) / 300 * 14) (-14) 14 ≤ 14 ∧
    (abs (x - s.drag.startX) ≤ 300 →
      clamp ((x - s.drag.startX) / 300 * 14) (-14) 14 = (x - s.drag.startX) * 14 / 300) ∧
    0 ≤ clamp (abs (x - s.drag.startX) / 120) 0 1 ∧
    clamp (abs (x - s.drag.startX) / 120) 0 1 ≤ 1 ∧
    (clamp (abs (x - s.drag.startX) / 120) 0 1 = 1 ↔ abs (x - s.drag.startX) ≥ 120) ∧
    (x - s.drag.startX > 0 →
      ((updateDrag x y s).els[card]?).map CardEl.likeOpacity =
        some (some (clamp (abs (x - s.drag.startX) / 120) 0 1)) ∧
      ((updateDrag x y s).els[card]?).map CardEl.nopeOpacity = some (some 0)) ∧
    (x - s.drag.startX ≤ 0 →
      ((updateDrag x y s).els[card]?).map CardEl.nopeOpacity =
        some (some (clamp (abs (x - s.drag.startX) / 120) 0 1)) ∧
      ((updateDrag x y s).els[card]?).map CardEl.likeOpacity = some (some 0)) := by
  have hd := updateDrag_drag x y s card hcard
  have he := updateDrag_el x y s card el hcard hel
  simp only [ROTATE_MAX, SWIPE_THRESHOLD] at he
  generalize x - s.drag.startX = dx at *
  have hrot := clamp_bounds (dx / 300 * 14) (-14) 14 (by norm_num)
  have hfade := clamp_bounds (abs dx / 120) 0 1 (by norm_num)
  refine ⟨by rw [hd], by rw [hd], by rw [he]; rfl, hrot.1, hrot.2, ?_, hfade.1, hfade.2, ?_,
    ?_, ?_⟩
  · intro habs
    have h := abs_le.mp habs
    rw [clamp_of_mem _ _ _ (by linarith [h.1]) (by linarith [h.2])]
    ring
  · unfold clamp
    constructor
    · intro h
      by_contra hlt
      have hlt2 : abs dx / 120 < 1 := by
        rw [div_lt_one (by norm_num)]; exact lt_of_not_ge hlt
      rw [min_eq_right (le_of_lt hlt2), max_eq_right (by positivity)] at h
      linarith
    · intro h
      have h1 : (1 : ℚ) ≤ abs dx / 120 := by
        rw [le_div_iff₀ (by norm_num)]; linarith
      rw [min_eq_left h1]
      exact max_eq_right (by norm_num)
  · intro hpos
    rw [he]
    simp [hpos]
  · intro hle
    rw [he]
    simp [not_lt.mpr hle]

/-- Three-card deck, session on A with origin `(0, 0)`, update to `(60, 8)`:
offset `(60, 8)`, rotation `2.8`, like stamp at `0.5`, nope stamp at `0`. -/
theorem updateDrag_feedback_witness :
    (updateDrag 60 8 (startDrag 0 0 2 (some 1) (renderDeck cards3))).drag.dx = 60 ∧
    ((updateDrag 60 8 (startDrag 0 0 2 (some 1) (renderDeck cards3))).els[2]?).map
      CardEl.transform = some (Transform.move 60 8 (14 / 5)) ∧
    ((updateDrag 60 8 (startDrag 0 0 2 (some 1) (renderDeck cards3))).els[2]?).map
      CardEl.likeOpacity = some (some (1 / 2)) ∧
    ((updateDrag 60 8 (startDrag 0 0 2 (some 1) (renderDeck cards3))).els[2]?).map
      CardEl.nopeOpacity = some (some 0) := by
  have h := updateDrag_feedback 60 8 (startDrag 0 0 2 (some 1) (renderDeck cards3)) 2
    ⟨0, Transform.rest 6 (49 / 50), Transition.off, none, none, "A", "Cat 1"⟩
    (by with_unfolding_all rfl) (by decide!)
  have hx : (startDrag 0 0 2 (some 1) (renderDeck cards3)).drag.startX = 0 := by
    with_unfolding_all rfl
  have hy : (startDrag 0 0 2 (some 1) (renderDeck cards3)).drag.startY = 0 := by
    with_unfolding_all rfl
  rw [hx, hy] at h
  obtain ⟨h1, -, h3, -, -, -, -, -, -, h10, -⟩ := h
  have h11 := h10 (by norm_num)
  refine ⟨by rw [h1]; norm_num, ?_, ?_, h11.2⟩
  · rw [h3]; norm_num [clamp]
  · rw [h11.1]; norm_num [clamp]

/-! ## Reset -/

theorem digitsVal_snoc (cs : List Char) (c : Char) :
    digitsVal (cs ++ [c]) = 10 * digitsVal cs + (c.toNat - 48) := by
  simp [digitsVal, List.foldl_append]

theorem digitChar_val (k : Nat) (hk : k < 10) : (Nat.digitChar k).toNat - 48 = k := by
  interval_cases k <;> rfl

theorem toDigitsCore_acc (f : Nat) : ∀ (n : Nat) (ds : List Char),
    Nat.toDigitsCore 10 f n ds = Nat.toDigitsCore 10 f n [] ++ ds := by
  induction f with
  | zero => intro n ds; simp [Nat.toDigitsCore]
  | succ f ih =>
    intro n ds
    simp only [Nat.toDigitsCore]
    split
    · simp
    · rw [ih (n / 10) (Nat.digitChar (n % 10) :: ds), ih (n / 10) [Nat.digitChar (n % 10)]]
      simp

theorem digitsVal_toDigitsCore (f : Nat) : ∀ n : Nat, n < f →
    digitsVal (Nat.toDigitsCore 10 f n []) = n := by
  induction f with
  | zero => intro n h; omega
  | succ f ih =>
    intro n h
    simp only [Nat.toDigitsCore]
    split
    · rename_i h0
      have hn : n < 10 := by omega
      have h1 : n % 10 = n := Nat.mod_eq_of_lt hn
      rw [h1]
      simpa [digitsVal] using digitChar_val n hn
    · rename_i h0
      rw [toDigitsCore_acc f (n / 10) [Nat.digitChar (n % 10)], digitsVal_snoc,
        ih (n / 10) (by omega), digitChar_val (n % 10) (Nat.mod_lt n (by norm_num))]
      omega

theorem digitsVal_toString (n : Nat) : digitsVal (toString n).data = n :=
  digitsVal_toDigitsCore (n + 1) n (Nat.lt_succ_self n)

theorem catUrl_injective : Function.Injective catUrl := by
  intro a b h
  have h1 := congrArg String.data h
  simp only [catUrl, String.data_append] at h1
  have h2 := List.append_cancel_left h1
  have h3 := congrArg digitsVal h2
  rwa [digitsVal_toString, digitsVal_toString] at h3

theorem render_frame (l : List (Nat × Cat)) (s : State) :
    (l.foldl (fun st p => appendChild (makeCard p.2 p.1 st) st) s).cats = s.cats ∧
    (l.foldl (fun st p => appendChild (makeCard p.2 p.1 st) st) s).currentIndex =
      s.currentIndex ∧
    (l.foldl (fun st p => appendChild (makeCard p.2 p.1 st) st) s).liked = s.liked ∧
    (l.foldl (fun st p => appendChild (makeCard p.2 p.1 st) st) s).timers = s.timers ∧
    (l.foldl (fun st p => appendChild (makeCard p.2 p.1 st) st) s).trace = s.trace := by
  induction l generalizing s with
  | nil => exact ⟨rfl, rfl, rfl, rfl, rfl⟩
  | cons p ps ih =>
    rw [List.foldl_cons]
    exact ih (appendChild (makeCard p.2 p.1 s) s)

theorem renderDeck_cats (s : State) : (renderDeck s).cats = s.cats :=
  (render_frame _ s).1
theorem renderDeck_currentIndex (s : State) : (renderDeck s).currentIndex = s.currentIndex :=
  (render_frame _ s).2.1
theorem renderDeck_liked (s : State) : (renderDeck s).liked = s.liked :=
  (render_frame _ s).2.2.1
theorem renderDeck_timers (s : State) : (renderDeck s).timers = s.timers :=
  (render_frame _ s).2.2.2.1
theorem renderDeck_trace (s : State) : (renderDeck s).trace = s.trace :=
  (render_frame _ s).2.2.2.2

theorem resetApp_cats (seed : Nat) (s : State) :
    (resetApp seed s).cats =
      (List.range TOTAL_CATS).map (fun i => (⟨i + 1, catUrl (seed + i)⟩ : Cat)) := by
  simp [resetApp, updateStatus, renderDeck_cats]

/-- C9: from any state and for any clock reading `seed`, `resetApp` leaves
`currentIndex = 0`, `liked = []` and a deck `cats` of exactly 12 cards, card
`i` having id `i + 1` and url `catUrl(seed + i)`; the 12 urls are pairwise
distinct. -/
theorem resetApp_fresh_deck (seed : Nat) (s : State) :
    (resetApp seed s).currentIndex = 0 ∧
    (resetApp seed s).liked = [] ∧
    (resetApp seed s).cats.length = 12 ∧
    (∀ i : Nat, i < 12 →
      (resetApp seed s).cats[i]? = some (⟨i + 1, catUrl (seed + i)⟩ : Cat)) ∧
    ((resetApp seed s).cats.map Cat.url).Nodup := by
  refine ⟨?_, ?_, ?_, ?_, ?_⟩
  · simp [resetApp, updateStatus, renderDeck_currentIndex]
  · simp [resetApp, updateStatus, renderDeck_liked]
  · simp [resetApp_cats, TOTAL_CATS]
  · intro i hi
    rw [resetApp_cats]
    simp [TOTAL_CATS, hi]
  · rw [resetApp_cats, List.map_map]
    refine List.Nodup.map ?_ (List.nodup_range TOTAL_CATS)
    intro a b hab
    have := catUrl_injective hab
    omega

/-! ## The rendered deck -/

theorem appendChild_hasCard_mono (el : CardEl) (s : State) (j : Nat) (h : s.hasCard j) :
    (appendChild el s).hasCard j := by
  obtain ⟨r, hr, hj⟩ := h
  refine ⟨r, by simp [appendChild, hr], ?_⟩
  unfold State.indexOf at hj ⊢
  cases hget : s.els[r]? with
  | none => rw [hget] at hj; cases hj
  | some e =>
    have hlt : r < s.els.length := by
      rcases Nat.lt_or_ge r s.els.length with h1 | h1
      · exact h1
      · rw [List.getElem?_eq_none h1] at hget; cases hget
    rw [hget] at hj
    simp only [appendChild]
    rw [List.getElem?_append_left hlt, hget]
    exact hj

theorem appendChild_hasCard_new (el : CardEl) (s : State) :
    (appendChild el s).hasCard el.index := by
  refine ⟨s.els.length, by simp [appendChild], ?_⟩
  simp [State.indexOf, appendChild]

theorem render_hasCard (l : List (Nat × Cat)) : ∀ s : State,
    (∀ j, s.hasCard j →
      (l.foldl (fun st p => appendChild (makeCard p.2 p.1 st) st) s).hasCard j) ∧
    (∀ p, p ∈ l →
      (l.foldl (fun st p => appendChild (makeCard p.2 p.1 st) st) s).hasCard p.1) := by
  induction l with
  | nil => intro s; exact ⟨fun _ h => h, fun p hp => by cases hp⟩
  | cons q qs ih =>
    intro s
    rw [List.foldl_cons]
    have ih1 := ih (appendChild (makeCard q.2 q.1 s) s)
    refine ⟨fun j h => ih1.1 j (appendChild_hasCard_mono _ s j h), ?_⟩
    intro p hp
    rcases List.mem_cons.mp hp with rfl | hp1
    · exact ih1.1 _ (appendChild_hasCard_new (makeCard p.2 p.1 s) s)
    · exact ih1.2 p hp1

theorem renderDeck_hasCard (s : State) (j : Nat) (hj : j < s.cats.length) :
    (renderDeck s).hasCard j := by
  have hmem : (j, s.cats[j]) ∈ s.cats.enum.reverse := by
    rw [List.mem_reverse, List.mk_mem_enum_iff_getElem?]
    exact List.getElem?_eq_getElem hj
  exact (render_hasCard s.cats.enum.reverse s).2 (j, s.cats[j]) hmem

theorem renderDeck_covered (s : State) : (renderDeck s).covered := by
  intro j _ hj
  rw [renderDeck_cats] at hj
  exact renderDeck_hasCard s j hj

theorem topCardEl_of_hasCard (s : State) (h : s.hasCard s.currentIndex) :
    ∃ card, topCardEl s = some card ∧ s.indexOf card = some s.currentIndex := by
  obtain ⟨r, hr, hi⟩ := h
  cases hf : topCardEl s with
  | none =>
    unfold topCardEl at hf
    rw [List.find?_eq_none] at hf
    exact absurd (by simp [hi]) (hf r hr)
  | some card =>
    refine ⟨card, rfl, ?_⟩
    unfold topCardEl at hf
    have := List.find?_some hf
    simpa using this

theorem topCardEl_indexOf (s : State) (card : Nat) (h : topCardEl s = some card) :
    s.indexOf card = some s.currentIndex := by
  unfold topCardEl at h
  have := List.find?_some h
  simpa using this

theorem topCardEl_mem (s : State) (card : Nat) (h : topCardEl s = some card) :
    card ∈ s.deck := by
  unfold topCardEl at h
  exact List.mem_of_find?_eq_some h

/-! ## The deferred advance -/

theorem showSummary_frame (s : State) :
    (showSummary s).currentIndex = s.currentIndex ∧ (showSummary s).liked = s.liked ∧
    (showSummary s).cats = s.cats ∧ (showSummary s).deck = s.deck ∧
    (showSummary s).els = s.els ∧ (showSummary s).timers = s.timers ∧
    (showSummary s).trace = s.trace ++ [Call.showSummary] := by
  unfold showSummary
  simp only []
  split <;> exact ⟨rfl, rfl, rfl, rfl, rfl, rfl, rfl⟩

theorem swipeTimeout_frame (card : Nat) (s : State) :
    (swipeTimeout card s).currentIndex = s.currentIndex + 1 ∧
    (swipeTimeout card s).liked = s.liked ∧
    (swipeTimeout card s).cats = s.cats ∧
    (swipeTimeout card s).deck = s.deck.erase card ∧
    (swipeTimeout card s).els = s.els ∧
    (swipeTimeout card s).timers = s.timers ∧
    (swipeTimeout card s).trace =
      if s.currentIndex + 1 ≥ s.cats.length then s.trace ++ [Call.showSummary] else s.trace := by
  unfold swipeTimeout
  simp only [updateStatus]
  split
  · rename_i h
    have hs := showSummary_frame
      { s with deck := s.deck.erase card, currentIndex := s.currentIndex + 1,
               status :=
                if (s.cats.length : Int) - ((s.currentIndex + 1 : Nat) : Int) > 0 then
                  "Remaining: " ++
                    toString ((s.cats.length : Int) - ((s.currentIndex + 1 : Nat) : Int)) ++
                    " | Liked: " ++ toString s.liked.length
                else "" }
    exact ⟨hs.1, hs.2.1, hs.2.2.1, hs.2.2.2.1, hs.2.2.2.2.1, hs.2.2.2.2.2.1, hs.2.2.2.2.2.2⟩
  · exact ⟨rfl, rfl, rfl, rfl, rfl, rfl, rfl⟩

@[simp] theorem flyOut_currentIndex (a : Action) (card : Nat) (s : State) :
    (flyOut a card s).currentIndex = s.currentIndex := by
  simp [flyOut]
@[simp] theorem flyOut_liked (a : Action) (card : Nat) (s : State) :
    (flyOut a card s).liked = s.liked := by
  simp [flyOut]
@[simp] theorem flyOut_cats (a : Action) (card : Nat) (s : State) :
    (flyOut a card s).cats = s.cats := by
  simp [flyOut]
@[simp] theorem flyOut_deck (a : Action) (card : Nat) (s : State) :
    (flyOut a card s).deck = s.deck := by
  simp [flyOut]
@[simp] theorem flyOut_timers (a : Action) (card : Nat) (s : State) :
    (flyOut a card s).timers = s.timers ++ [card] := by
  simp [flyOut]

@[simp] theorem flyOut_indexOf (a : Action) (card r : Nat) (s : State) :
    (flyOut a card s).indexOf r = s.indexOf r := by
  unfold flyOut
  simp only []
  refine Eq.trans (updEl_indexOf _ _ _ _ ?_) (updEl_indexOf _ _ _ _ ?_)
  · intro el; rfl
  · intro el; rfl

/-- What `swipe` does when it finds the top card and does not throw. -/
theorem swipe_effect (a : Action) (s : State) (card : Nat) (cat : Cat)
    (htop : topCardEl s = some card) (hcat : s.cats[s.currentIndex]? = some cat) :
    ∃ t : State, swipe a s = Except.ok t ∧ t.timers = s.timers ++ [card] ∧
      t.liked = (if a = Action.like then s.liked ++ [cat.url] else s.liked) ∧
      t.currentIndex = s.currentIndex ∧ t.cats = s.cats ∧ t.deck = s.deck ∧
      t.trace = s.trace ++ [Call.swipe a] ∧ (∀ r, t.indexOf r = s.indexOf r) := by
  cases a with
  | like =>
    exact ⟨_, swipe_like_some s card cat htop hcat, by simp, by simp, by simp, by simp,
      by simp, by simp, fun r => (flyOut_indexOf _ _ _ _).trans rfl⟩
  | dislike =>
    exact ⟨_, swipe_dislike_some s card htop, by simp, by simp, by simp, by simp,
      by simp, by simp, fun r => (flyOut_indexOf _ _ _ _).trans rfl⟩

/-! ## Resolving the top card -/

theorem resolve_eq (a : Action) (s t : State) (card : Nat) (hs : swipe a s = Except.ok t)
    (ht : t.timers = [card]) :
    resolve a s = swipeTimeout card { t with timers := [] } := by
  unfold resolve
  rw [hs, after_ok]
  unfold dispatch
  simp only [ht, after_ok]

/-- C3: with a top card at cursor position `i` and `cats[i]` defined,
`swipe("like")` returns after registering one timer for that card, and once
that timer has run `liked` is the old `liked` with `cats[i].url` appended at
the end and `currentIndex` is `i + 1`; `swipe("dislike")` does the same with
`liked` unchanged. With no other timer pending, this is what `resolve`
(the swipe, then the timer firing) yields. -/
theorem swipe_then_advance (s : State) (card : Nat) (cat : Cat)
    (htop : topCardEl s = some card) (hcat : s.cats[s.currentIndex]? = some cat) :
    (∃ t : State, swipe Action.like s = Except.ok t ∧ t.timers = s.timers ++ [card] ∧
      ∀ rest : List Nat,
        (swipeTimeout card { t with timers := rest }).liked = s.liked ++ [cat.url] ∧
        (swipeTimeout card { t with timers := rest }).currentIndex = s.currentIndex + 1) ∧
    (∃ t : State, swipe Action.dislike s = Except.ok t ∧ t.timers = s.timers ++ [card] ∧
      ∀ rest : List Nat,
        (swipeTimeout card { t with timers := rest }).liked = s.liked ∧
        (swipeTimeout card { t with timers := rest }).currentIndex = s.currentIndex + 1) ∧
    (s.timers = [] →
      (resolve Action.like s).liked = s.liked ++ [cat.url] ∧
      (resolve Action.like s).currentIndex = s.currentIndex + 1 ∧
      (resolve Action.dislike s).liked = s.liked ∧
      (resolve Action.dislike s).currentIndex = s.currentIndex + 1) := by
  obtain ⟨t1, h1, ht1, hl1, hc1, -⟩ := swipe_effect Action.like s card cat htop hcat
  obtain ⟨t2, h2, ht2, hl2, hc2, -⟩ := swipe_effect Action.dislike s card cat htop hcat
  have hne : ¬ (Action.dislike = Action.like) := by decide
  rw [if_pos rfl] at hl1
  rw [if_neg hne] at hl2
  have e1 : ∀ rest : List Nat,
      (swipeTimeout card { t1 with timers := rest }).liked = s.liked ++ [cat.url] ∧
      (swipeTimeout card { t1 with timers := rest }).currentIndex = s.currentIndex + 1 := by
    intro rest
    have hf := swipeTimeout_frame card { t1 with timers := rest }
    exact ⟨hf.2.1.trans hl1, hf.1.trans (by rw [← hc1])⟩
  have e2 : ∀ rest : List Nat,
      (swipeTimeout card { t2 with timers := rest }).liked = s.liked ∧
      (swipeTimeout card { t2 with timers := rest }).currentIndex = s.currentIndex + 1 := by
    intro rest
    have hf := swipeTimeout_frame card { t2 with timers := rest }
    exact ⟨hf.2.1.trans hl2, hf.1.trans (by rw [← hc2])⟩
  refine ⟨⟨t1, h1, ht1, e1⟩, ⟨t2, h2, ht2, e2⟩, ?_⟩
  intro hq
  rw [hq, List.nil_append] at ht1 ht2
  rw [resolve_eq Action.like s t1 card h1 ht1, resolve_eq Action.dislike s t2 card h2 ht2]
  exact ⟨(e1 []).1, (e1 []).2, (e2 []).1, (e2 []).2⟩

/-- Three-card deck A, B, C: press on A at `x = 0`, move to `x = 150`, release,
and let the timer fire. Then `liked = [A.url]`, `currentIndex = 1`, and the top
card is B (reference 1, `data-index` 1). -/
theorem swipe_then_advance_witness :
    (run (gesture 150 ++ [Event.timeout]) (renderDeck cards3)).liked = ["A"] ∧
    (run (gesture 150 ++ [Event.timeout]) (renderDeck cards3)).currentIndex = 1 ∧
    topCardEl (run (gesture 150 ++ [Event.timeout]) (renderDeck cards3)) = some 1 ∧
    (run (gesture 150 ++ [Event.timeout]) (renderDeck cards3)).indexOf 1 = some 1 := by
  have hrun : run (gesture 150 ++ [Event.timeout]) (renderDeck cards3) =
      resolve Action.like
        (clearDrag (updateDrag 150 0 (startDrag 0 0 2 (some 1) (renderDeck cards3)))) := by
    with_unfolding_all rfl
  have h := (swipe_then_advance
    (clearDrag (updateDrag 150 0 (startDrag 0 0 2 (some 1) (renderDeck cards3))))
    2 ⟨1, "A"⟩ (by with_unfolding_all rfl) (by with_unfolding_all rfl)).2.2
    (by with_unfolding_all rfl)
  rw [hrun]
  exact ⟨h.1.trans (by with_unfolding_all rfl), h.2.1.trans (by with_unfolding_all rfl),
    by with_unfolding_all rfl, by with_unfolding_all rfl⟩

/-! ## Exhausting the deck -/

theorem swipe_summaryCalls (a : Action) (s : State) :
    summaryCalls (after (swipe a s)) = summaryCalls s := by
  unfold summaryCalls
  rw [swipe_trace, List.count_append, List.count_singleton]
  simp

/-- One resolve on a covered deck with no timer pending and a card left: the
cursor moves by one, the deck stays covered, and `showSummary` is called exactly
when the cursor reaches the end of `cats`. -/
theorem resolve_step (a : Action) (s : State) (hcov : s.covered) (htim : s.timers = [])
    (hlt : s.currentIndex < s.cats.length) :
    (resolve a s).covered ∧ (resolve a s).timers = [] ∧
    (resolve a s).currentIndex = s.currentIndex + 1 ∧ (resolve a s).cats = s.cats ∧
    summaryCalls (resolve a s) =
      summaryCalls s + (if s.currentIndex + 1 = s.cats.length then 1 else 0) := by
  obtain ⟨card, htop, hidx⟩ := topCardEl_of_hasCard s (hcov s.currentIndex (le_refl _) hlt)
  have hcat : s.cats[s.currentIndex]? = some (s.cats[s.currentIndex]) :=
    List.getElem?_eq_getElem hlt
  obtain ⟨t, hsw, htt, -, htc, htcats, htdeck, httrace, htidx⟩ :=
    swipe_effect a s card _ htop hcat
  rw [htim, List.nil_append] at htt
  rw [resolve_eq a s t card hsw htt]
  have hf := swipeTimeout_frame card { t with timers := [] }
  obtain ⟨hci, -, hcats, hdeck, hels, htimers, htrace⟩ := hf
  simp only [] at hci hcats hdeck hels htimers htrace
  refine ⟨?_, htimers, by rw [hci, htc], by rw [hcats, htcats], ?_⟩
  · intro j hj1 hj2
    rw [hci, htc] at hj1
    rw [hcats, htcats] at hj2
    obtain ⟨r, hr, hrj⟩ := hcov j (by omega) hj2
    have hne : r ≠ card := by
      intro h
      rw [h, hidx] at hrj
      injection hrj with h1
      omega
    refine ⟨r, ?_, ?_⟩
    · rw [hdeck, htdeck]
      exact (List.mem_erase_of_ne hne).mpr hr
    · unfold State.indexOf
      rw [hels]
      exact (htidx r).trans hrj
  · unfold summaryCalls
    rw [htrace, htc, htcats, httrace]
    by_cases h : s.currentIndex + 1 = s.cats.length
    · rw [if_pos (by omega), if_pos h]
      simp [List.count_append, List.count_singleton]
    · rw [if_neg (by omega), if_neg h]
      simp [List.count_append, List.count_singleton]

theorem resolveAll_spec (acts : List Action) : ∀ s : State, s.covered → s.timers = [] →
    s.currentIndex + acts.length ≤ s.cats.length →
    (resolveAll acts s).covered ∧ (resolveAll acts s).timers = [] ∧
    (resolveAll acts s).currentIndex = s.currentIndex + acts.length ∧
    (resolveAll acts s).cats = s.cats ∧
    summaryCalls (resolveAll acts s) = summaryCalls s +
      (if acts.length ≠ 0 ∧ s.currentIndex + acts.length = s.cats.length then 1 else 0) := by
  induction acts with
  | nil => intro s hcov htim _; exact ⟨hcov, htim, rfl, rfl, by simp [resolveAll]⟩
  | cons a rest ih =>
    intro s hcov htim hle
    simp only [List.length_cons] at hle
    obtain ⟨h1, h2, h3, h4, h5⟩ := resolve_step a s hcov htim (by omega)
    obtain ⟨k1, k2, k3, k4, k5⟩ := ih (resolve a s) h1 h2 (by rw [h3, h4]; omega)
    have hfold : resolveAll (a :: rest) s = resolveAll rest (resolve a s) := rfl
    rw [hfold]
    refine ⟨k1, k2, by rw [k3, h3, List.length_cons]; omega, by rw [k4, h4], ?_⟩
    rw [k5, h5, h3, h4]
    simp only [List.length_cons]
    by_cases hr : rest.length = 0
    · simp [hr]
    · have e1 : ¬ (s.currentIndex + 1 = s.cats.length) := by omega
      rw [if_neg e1]
      by_cases he : s.currentIndex + 1 + rest.length = s.cats.length
      · rw [if_pos ⟨hr, he⟩, if_pos ⟨by omega, by omega⟩]
      · rw [if_neg (fun h => he h.2), if_neg (fun h => he (by omega))]

/-- C7: on a freshly rendered deck of `n ≥ 1` cards with the cursor at 0 and no
timer pending, resolving `n` outcomes one after another (each followed by its
deferred advance) calls `showSummary` exactly once: after fewer than `n`
resolves no call has been made, the `swipe` of the next resolve makes none
either, and after the `n`-th resolve exactly one has been made. -/
theorem summary_exactly_once (s0 : State) (acts : List Action)
    (htim : s0.timers = []) (hci : s0.currentIndex = 0) (hn : 1 ≤ s0.cats.length)
    (hlen : acts.length = s0.cats.length) :
    (∀ k : Nat, k < acts.length →
      summaryCalls (resolveAll (acts.take k) (renderDeck s0)) = summaryCalls s0 ∧
      ∀ a : Action,
        summaryCalls (after (swipe a (resolveAll (acts.take k) (renderDeck s0)))) =
          summaryCalls s0) ∧
    summaryCalls (resolveAll acts (renderDeck s0)) = summaryCalls s0 + 1 := by
  have hcov := renderDeck_covered s0
  have htim1 : (renderDeck s0).timers = [] := by rw [renderDeck_timers, htim]
  have hci1 : (renderDeck s0).currentIndex = 0 := by rw [renderDeck_currentIndex, hci]
  have hcats : (renderDeck s0).cats = s0.cats := renderDeck_cats s0
  have hbase : summaryCalls (renderDeck s0) = summaryCalls s0 := by
    unfold summaryCalls; rw [renderDeck_trace]
  constructor
  · intro k hk
    have hlk : (acts.take k).length = k := by
      rw [List.length_take]; omega
    have h := (resolveAll_spec (acts.take k) (renderDeck s0) hcov htim1
      (by rw [hci1, hcats, hlk]; omega)).2.2.2.2
    rw [hlk, hci1, hcats, hbase, if_neg (by omega)] at h
    refine ⟨h, fun a => ?_⟩
    rw [swipe_summaryCalls]
    exact h
  · have h := (resolveAll_spec acts (renderDeck s0) hcov htim1
      (by rw [hci1, hcats, hlen]; omega)).2.2.2.2
    rw [hci1, hcats, hbase, if_pos ⟨by omega, by omega⟩] at h
    exact h

/-- The three-card deck A, B, C resolved like, dislike, like: no call of
`showSummary` after two resolves, one call after the third. -/
theorem summary_exactly_once_witness :
    summaryCalls (resolveAll [Action.like, Action.dislike] (renderDeck cards3)) = 0 ∧
    summaryCalls
      (resolveAll [Action.like, Action.dislike, Action.like] (renderDeck cards3)) = 1 :=
  ⟨((summary_exactly_once cards3 [Action.like, Action.dislike, Action.like]
      rfl rfl (by decide) rfl).1 2 (by decide)).1,
   (summary_exactly_once cards3 [Action.like, Action.dislike, Action.like]
      rfl rfl (by decide) rfl).2⟩

/-! ## Cancelled gesture -/

theorem startDrag_frame (x y : ℚ) (card : Nat) (pid : Option Nat) (s : State) :
    (startDrag x y card pid s).cats = s.cats ∧
    (startDrag x y card pid s).currentIndex = s.currentIndex ∧
    (startDrag x y card pid s).timers = s.timers ∧
    (startDrag x y card pid s).liked = s.liked ∧
    (startDrag x y card pid s).drag =
      { active := true, startX := x, startY := y, dx := 0, dy := 0,
        pointerId := pid, card := some card } := by
  simp [startDrag]

theorem startDrag_el (x y : ℚ) (card : Nat) (pid : Option Nat) (s : State) (el : CardEl)
    (hel : s.els[card]? = some el) :
    (startDrag x y card pid s).els[card]? = some { el with transition := Transition.off } := by
  unfold startDrag
  simp only []
  refine (updEl_get_self _ card _ el ?_).trans rfl
  exact hel

theorem updateDrag_frame (x y : ℚ) (s : State) :
    (updateDrag x y s).cats = s.cats ∧ (updateDrag x y s).currentIndex = s.currentIndex ∧
    (updateDrag x y s).timers = s.timers ∧ (updateDrag x y s).liked = s.liked := by
  unfold updateDrag
  split
  · exact ⟨rfl, rfl, rfl, rfl⟩
  · simp only []
    split <;> simp

theorem snapBack_frame (card : Nat) (s : State) :
    (snapBack card s).cats = s.cats ∧ (snapBack card s).currentIndex = s.currentIndex ∧
    (snapBack card s).timers = s.timers ∧ (snapBack card s).liked = s.liked := by
  unfold snapBack
  simp only []
  split <;> simp

theorem snapBack_el (card : Nat) (s : State) (el : CardEl) (hel : s.els[card]? = some el) :
    (snapBack card s).els[card]? = some
      { el with
        transition := Transition.transformEase 180
        transform := Transform.rest
          (min 10 (((s.cats.length : ℚ) - 1 - (el.index : ℚ)) * 3))
          (1 - min (6 / 100) (((s.cats.length : ℚ) - 1 - (el.index : ℚ)) * (1 / 100)))
        likeOpacity := some 0
        nopeOpacity := some 0 } := by
  have hel1 : ({ s with trace := s.trace ++ [Call.snapBack card] } : State).els[card]? =
      some el := hel
  unfold snapBack
  simp only [hel1]
  refine (updEl_get_self _ card _ _ (updEl_get_self _ card _ _ (updEl_get_self _ card _ _
    (updEl_get_self _ card _ el ?_)))).trans rfl
  exact hel

/-- The resting transform `makeCard` and `snapBack` compute for a card with
`data-index = index` in a deck of `n` cards. -/
theorem makeCard_transform (cat : Cat) (index : Nat) (s : State) :
    (makeCard cat index s).transform = Transform.rest
      (min 10 (((s.cats.length : ℚ) - 1 - (index : ℚ)) * 3))
      (1 - min (6 / 100) (((s.cats.length : ℚ) - 1 - (index : ℚ)) * (1 / 100))) := rfl

/-- C8, as the code has it: when a gesture on the top card is cancelled
(`startDrag` on the top card, `updateDrag` to an offset with `|dx| ≤ 120`,
`finishDrag`), `snapBack` sets the transform of the card to the resting transform
`makeCard` gave it, computed from `depth = cats.length - 1 - index` with
`index = currentIndex`: vertical offset `min(10, depth * 3)` and scale
`1 - min(0.06, depth * 0.01)`; both stamp opacities become `0`, no timer is
registered and `currentIndex` is unchanged. -/
theorem cancel_restores_resting_transform (s : State) (card : Nat) (x0 y0 x y : ℚ)
    (pid : Option Nat) (htop : topCardEl s = some card) (hdx : abs (x - x0) ≤ 120) :
    ∃ t : State,
      finishDrag (updateDrag x y (startDrag x0 y0 card pid s)) = Except.ok t ∧
      (t.els[card]?).map CardEl.transform = some (Transform.rest
        (min 10 (((s.cats.length : ℚ) - 1 - (s.currentIndex : ℚ)) * 3))
        (1 - min (6 / 100) (((s.cats.length : ℚ) - 1 - (s.currentIndex : ℚ)) * (1 / 100)))) ∧
      (∀ cat : Cat, (t.els[card]?).map CardEl.transform =
        some (makeCard cat s.currentIndex s).transform) ∧
      (t.els[card]?).map CardEl.likeOpacity = some (some 0) ∧
      (t.els[card]?).map CardEl.nopeOpacity = some (some 0) ∧
      t.currentIndex = s.currentIndex ∧ t.timers = s.timers := by
  have hidx := topCardEl_indexOf s card htop
  unfold State.indexOf at hidx
  cases hel : s.els[card]? with
  | none => rw [hel] at hidx; cases hidx
  | some el =>
    rw [hel] at hidx
    have hi : el.index = s.currentIndex := by simpa using hidx
    have hs1 := startDrag_frame x0 y0 card pid s
    have he1 := startDrag_el x0 y0 card pid s el hel
    have hc1 : (startDrag x0 y0 card pid s).drag.card = some card := by rw [hs1.2.2.2.2]
    have hd2 := updateDrag_drag x y _ card hc1
    have he2 := updateDrag_el x y _ card _ hc1 he1
    have hf2 := updateDrag_frame x y (startDrag x0 y0 card pid s)
    rw [hs1.2.2.2.2] at hd2 he2
    simp only [] at hd2 he2
    generalize updateDrag x y (startDrag x0 y0 card pid s) = s2 at hd2 he2 hf2
    have hc2 : s2.drag.card = some card := by rw [hd2]
    have hdx2 : s2.drag.dx = x - x0 := by rw [hd2]
    have hb := abs_le.mp hdx
    have hfin : finishDrag s2 = Except.ok (snapBack card (clearDrag s2)) := by
      unfold finishDrag
      rw [hc2]
      simp only [hdx2, SWIPE_THRESHOLD]
      rw [if_neg (by linarith [hb.2]), if_neg (by linarith [hb.1])]
    have he3 : (clearDrag s2).els[card]? = _ := he2
    have hsb := snapBack_el card (clearDrag s2) _ he3
    have hfr := snapBack_frame card (clearDrag s2)
    have hcats : (clearDrag s2).cats = s.cats := hf2.1.trans hs1.1
    have hci : (clearDrag s2).currentIndex = s.currentIndex := hf2.2.1.trans hs1.2.1
    have htm : (clearDrag s2).timers = s.timers := hf2.2.2.1.trans hs1.2.2.1
    rw [hcats] at hsb
    simp only [hi] at hsb
    refine ⟨_, hfin, ?_, ?_, ?_, ?_, hfr.2.1.trans hci, hfr.2.2.1.trans htm⟩
    · rw [hsb]; rfl
    · intro cat; rw [hsb]; rfl
    · rw [hsb]; rfl
    · rw [hsb]; rfl

/-- Three-card deck A, B, C, gesture on A (index 0, reference 2) from `x = 0`
to `x = 50`: the transform set is that of depth `3 - 1 - 0 = 2`, vertical
offset 6 and scale 0.98; the cursor stays at 0. -/
theorem cancel_restores_resting_transform_witness :
    ∃ t : State,
      finishDrag (updateDrag 50 0 (startDrag 0 0 2 (some 1) (renderDeck cards3))) =
        Except.ok t ∧
      (t.els[2]?).map CardEl.transform = some (Transform.rest 6 (49 / 50)) ∧
      t.currentIndex = 0 := by
  obtain ⟨t, h1, h2, -, -, -, h5, -⟩ :=
    cancel_restores_resting_transform (renderDeck cards3) 2 0 0 50 0 (some 1)
      (by with_unfolding_all rfl) (by norm_num)
  refine ⟨t, h1, ?_, h5⟩
  rw [h2]
  have hlen : (renderDeck cards3).cats.length = 3 := by rw [renderDeck_cats]; rfl
  have hci : (renderDeck cards3).currentIndex = 0 := by rw [renderDeck_currentIndex]; rfl
  rw [hlen, hci]
  norm_num

/-- C8 as stated fails: on the three-card deck A, B, C the cancelled gesture on
the top card A (moved to `x = 50`) leaves A with the transform of vertical
offset 6 and scale 0.98, not with offset 0 and scale 1. -/
theorem snapBack_not_depth_zero :
    topCardEl (renderDeck cards3) = some 2 ∧
    (renderDeck cards3).indexOf 2 = some 0 ∧
    ((run (gesture 50) (renderDeck cards3)).els[2]?).map CardEl.transform =
      some (Transform.rest 6 (49 / 50)) ∧
    ((run (gesture 50) (renderDeck cards3)).els[2]?).map CardEl.transform ≠
      some (Transform.rest (min 10 (0 * 3)) (1 - min (6 / 100) (0 * (1 / 100)))) := by
  have h : ((run (gesture 50) (renderDeck cards3)).els[2]?).map CardEl.transform =
      some (Transform.rest 6 (49 / 50)) := by
    decide!
  refine ⟨by with_unfolding_all rfl, by with_unfolding_all rfl, h, ?_⟩
  rw [h]
  norm_num

/-! ## Behaviour outside the session and cursor guards -/

/-- C2 (the code at the failing input): with a session active for pointer 1
(origin `(0, 0)`, offset `(30, 10)`), a `pointerdown` of pointer 2 on the top
card at `(200, 300)` rebinds the session to pointer 2, moves the origin to
`(200, 300)` and zeroes the offset. -/
theorem second_pointerdown_overwrites_session :
    (run firstContact page0).drag =
      { active := true, startX := 0, startY := 0, dx := 30, dy := 10,
        pointerId := some 1, card := some 11 } ∧
    (after (dispatch secondContact (run firstContact page0))).drag =
      { active := true, startX := 200, startY := 300, dx := 0, dy := 0,
        pointerId := some 2, card := some 11 } := by
  constructor <;> decide!

/-- C6 (the code at the failing input): on the page right after `init`, two
clicks on Like before the first timer fires push the url of card 0 twice and
move the cursor to 2, while card 1 is still in the deck; the same double click
on the last card, after eleven cards were resolved one at a time, moves the
cursor to 13 in a deck of 12 and calls `showSummary` twice. -/
theorem double_click_advances_twice :
    (run doubleClick page0).currentIndex = 2 ∧
    (run doubleClick page0).liked = [catUrl 0, catUrl 0] ∧
    10 ∈ (run doubleClick page0).deck ∧
    (run doubleClick page0).indexOf 10 = some 1 ∧
    (run (elevenLikes ++ doubleClick) page0).currentIndex = 13 ∧
    (run (elevenLikes ++ doubleClick) page0).cats.length = 12 ∧
    summaryCalls (run (elevenLikes ++ doubleClick) page0) = 2 := by
  refine ⟨?_, ?_, ?_, ?_, ?_, ?_, ?_⟩
  · with_unfolding_all rfl
  · with_unfolding_all rfl
  · decide!
  · with_unfolding_all rfl
  · with_unfolding_all rfl
  · with_unfolding_all rfl
  · with_unfolding_all rfl

end Paws
